import Mathlib

/-!
Verification of the chat-agent conversation state machine, retry policy and
error classification (shallow embedding of `src/main.py` and `src/utils.py`).

The conversation history is the ordered list `conversation_history` of
role/content dictionaries from `ChatAgent`; Python dicts `{"role": r,
"content": c}` are embedded as the `Message` structure.  Mutating methods
become functions `List Message → List Message` (or `Except` for the fallible
`add_message`).  The tenacity retry decorator on `send_message`
(`stop_after_attempt(3)`, `wait_exponential(multiplier=1, min=2, max=10)`,
`reraise=True`) is embedded as an explicit bounded loop threading the mutated
history, the attempt counter and the list of back-off sleeps; the external
provider is an oracle `Nat → Except PyErr String` giving each attempt's
outcome.  `APIErrorHandler.handle_error` becomes a total function producing
the `ErrorInfo` record; `time.strftime` is passed in as the `now` argument.
-/

namespace ChatAgentSpec

/-- One conversation message: the dict `{"role": ..., "content": ...}` used
throughout `main.py`. -/
structure Message where
  role : String
  content : String
  deriving Repr, DecidableEq

/-- Exceptions that can reach `ChatAgent`: `ValueError` raised by
`add_message`, the openai error classes distinguished by
`APIErrorHandler.handle_error` (`RateLimitError`, `APIConnectionError`,
`BadRequestError`, other `APIError`s), and any other exception
(`otherError` carries the Python class name and message). -/
inductive PyErr where
  | valueError (msg : String)
  | rateLimitError (msg : String)
  | apiConnectionError (msg : String)
  | badRequestError (msg : String)
  | apiError (msg : String)
  | otherError (name msg : String)
  deriving Repr, DecidableEq

/-- Python class name of the exception, i.e. `type(error).__name__`. -/
def PyErr.typeName : PyErr → String
  | .valueError _ => "ValueError"
  | .rateLimitError _ => "RateLimitError"
  | .apiConnectionError _ => "APIConnectionError"
  | .badRequestError _ => "BadRequestError"
  | .apiError _ => "APIError"
  | .otherError name _ => name

/-- Message text of the exception, i.e. `str(error)`. -/
def PyErr.text : PyErr → String
  | .valueError msg => msg
  | .rateLimitError msg => msg
  | .apiConnectionError msg => msg
  | .badRequestError msg => msg
  | .apiError msg => msg
  | .otherError _ msg => msg

/-- Error-information dictionary built by `APIErrorHandler.handle_error`. -/
structure ErrorInfo where
  error_type : String
  message : String
  timestamp : String
  suggestion : String
  deriving Repr, DecidableEq

/-- Embedding of `APIErrorHandler.handle_error` (utils.py, lines 115-148).
The `isinstance` chain is mirrored branch by branch; in the openai library
`RateLimitError`, `APIConnectionError` and `BadRequestError` are all
subclasses of `APIError`, and the chain tests the three specific classes
first, so the flat match below is order-faithful.  `now` stands for
`time.strftime("%Y-%m-%d %H:%M:%S")`. -/
def handle_error (error : PyErr) (now : String) : ErrorInfo :=
  { error_type := error.typeName
    message := error.text
    timestamp := now
    suggestion :=
      match error with
      | .rateLimitError _ =>
          "Please try again later. The API is currently experiencing high demand."
      | .apiConnectionError _ =>
          "Please check your internet connection and try again."
      | .badRequestError _ =>
          "The API request was malformed. Please check your inputs."
      | .apiError _ =>
          "There was an issue with the API. Please try again later."
      | _ =>
          "An unexpected error occurred. Please try again or contact support." }

/-- Occurrence of one character sequence inside another, by scanning every
suffix for a prefix match. -/
def strContains (needle : List Char) : List Char → Bool
  | [] => needle.isEmpty
  | c :: rest => needle.isPrefixOf (c :: rest) || strContains needle rest

/-- Decidable check that `needle` occurs somewhere in `s`, used to state that
a suggestion "mentions retrying later". -/
def mentions (needle s : String) : Bool :=
  strContains needle.data s.data

/-- Embedding of `ChatAgent.set_system_prompt` (main.py, lines 55-67): if the
history starts with a system message its content is replaced in place,
otherwise a fresh system message is inserted at position 0. -/
def set_system_prompt (system_prompt : String) : List Message → List Message
  | [] => [⟨"system", system_prompt⟩]
  | m :: rest =>
    if m.role = "system" then { m with content := system_prompt } :: rest
    else ⟨"system", system_prompt⟩ :: m :: rest

/-- Embedding of `ChatAgent.add_message` (main.py, lines 71-87): an invalid
role raises `ValueError` before any mutation; role `system` delegates to
`set_system_prompt`; otherwise the message is appended. -/
def add_message (role content : String) (hist : List Message) :
    Except PyErr (List Message) :=
  if role ∉ ["user", "assistant", "system"] then
    .error (.valueError
      ("Invalid role: " ++ role ++
        ". Must be \x27user\x27, \x27assistant\x27, or \x27system\x27"))
  else if role = "system" then
    .ok (set_system_prompt content hist)
  else
    .ok (hist ++ [⟨role, content⟩])

/-- Method-call view of `add_message`: the object's history after the call
together with the call's outcome.  A raised `ValueError` happens before any
mutation, so the history component is unchanged in the error case. -/
def add_message_run (role content : String) (hist : List Message) :
    List Message × Except PyErr Unit :=
  match add_message role content hist with
  | .ok newHist => (newHist, .ok ())
  | .error e => (hist, .error e)

/-- Embedding of `ChatAgent.get_conversation_history` (main.py, lines
135-142): returns the current history list. -/
def get_conversation_history (hist : List Message) : List Message :=
  hist

/-- Embedding of `ChatAgent.clear_conversation` (main.py, lines 144-155):
when `keep_system_prompt` is set and the history starts with a system
message, the history is reset to a one-element list rebuilt from that
message's content; otherwise it is emptied. -/
def clear_conversation (keep_system_prompt : Bool) :
    List Message → List Message
  | [] => []
  | m :: _ =>
    if keep_system_prompt ∧ m.role = "system" then [⟨"system", m.content⟩]
    else []

/-- Single-system-message invariant from the spec's data model: at most one
message has role `system`, and if present it occupies position 0.
Equivalently, no message after position 0 has role `system`. -/
def SystemInvariant (hist : List Message) : Prop :=
  ∀ m ∈ hist.drop 1, m.role ≠ "system"

instance (hist : List Message) : Decidable (SystemInvariant hist) :=
  List.decidableBAll _ _

/-- Result of `add_message` preserving the invariant: on success the new
history satisfies it, a raised `ValueError` left the history untouched. -/
def InvPreserved : Except PyErr (List Message) → Prop
  | .ok hist => SystemInvariant hist
  | .error _ => True

instance (r : Except PyErr (List Message)) : Decidable (InvPreserved r) := by
  cases r <;> simp [InvPreserved] <;> infer_instance

/-- Embedding of tenacity's `wait_exponential(multiplier, min, max)` wait
(the decorator on `send_message` uses `multiplier=1, min=2, max=10`): the
sleep computed when attempt number `attempt_number` has just failed is
`max(max(0, min), min(multiplier * exp_base ** (attempt_number - 1), max))`
seconds, with `exp_base = 2`.  All quantities involved here are whole
seconds, so `Nat` suffices. -/
def wait_exponential (multiplier min_ max_ attempt_number : Nat) : Nat :=
  max (max 0 min_) (min (multiplier * 2 ^ (attempt_number - 1)) max_)

/-- Outcome of one run of the decorated `send_message` body: the history as
mutated by this call (attempt), and either the returned assistant reply or
the re-raised exception.  The body appends the user message, consults the
provider (`outcomes attempt` stands for the
`client.chat.completions.create` call on attempt number `attempt`), and on
success appends the assistant reply; on any exception it classifies and
logs (observable through `handle_error`, no state change) and re-raises. -/
def send_message_once (outcomes : Nat → Except PyErr String) (message : String)
    (attempt : Nat) (hist : List Message) : List Message × Except PyErr String :=
  match add_message "user" message hist with
  | .error e => (hist, .error e)
  | .ok hist1 =>
    match outcomes attempt with
    | .error e => (hist1, .error e)
    | .ok reply =>
      match add_message "assistant" reply hist1 with
      | .error e => (hist1, .error e)
      | .ok hist2 => (hist2, .ok reply)

/-- Aggregate result of `send_message` under the retry decorator: final
history, number of the attempt the call ended on, the back-off sleeps
performed (in order), and the returned reply or re-raised exception. -/
structure SendResult where
  history : List Message
  attempts : Nat
  sleeps : List Nat
  outcome : Except PyErr String
  deriving Repr

/-- Tenacity retry loop for `send_message`: runs the body; on success stops,
on an exception either sleeps `wait_exponential 1 2 10 attempt` and retries
(`remaining` retries still allowed) or, with no retry left
(`stop_after_attempt(3)` reached), re-raises the last exception unwrapped
(`reraise=True`). -/
def retry_loop (outcomes : Nat → Except PyErr String) (message : String) :
    Nat → Nat → List Message → List Nat → SendResult
  | 0, attempt, hist, sleeps =>
    let r := send_message_once outcomes message attempt hist
    ⟨r.1, attempt, sleeps, r.2⟩
  | remaining + 1, attempt, hist, sleeps =>
    let r := send_message_once outcomes message attempt hist
    match r.2 with
    | .ok reply => ⟨r.1, attempt, sleeps, .ok reply⟩
    | .error _ =>
      retry_loop outcomes message remaining (attempt + 1) r.1
        (sleeps ++ [wait_exponential 1 2 10 attempt])

/-- Embedding of `ChatAgent.send_message` (main.py, lines 90-133) together
with its retry decorator `@retry(stop=stop_after_attempt(3),
wait=wait_exponential(multiplier=1, min=2, max=10), reraise=True)`: at most
3 attempts in total, so 2 retries remain after the first attempt. -/
def send_message (outcomes : Nat → Except PyErr String) (message : String)
    (hist : List Message) : SendResult :=
  retry_loop outcomes message 2 1 hist []

/-- JSON values, the possible results of `json.load` (the textual
rendering/parsing done by the `json` library is the external collaborator;
histories and files are related at the level of this tree). -/
inductive Json where
  | null
  | bool (b : Bool)
  | num (n : Int)
  | str (s : String)
  | arr (xs : List Json)
  | obj (fields : List (String × Json))
  deriving Repr

/-- JSON shape of one message as written by `json.dump` in
`save_conversation`: the object with the `role` and `content` keys. -/
def encodeMessage (m : Message) : Json :=
  .obj [("role", .str m.role), ("content", .str m.content)]

/-- Reading one history entry back from its JSON object. -/
def decodeMessage : Json → Option Message
  | .obj [("role", .str r), ("content", .str c)] => some ⟨r, c⟩
  | _ => none

/-- Embedding of `ChatAgent.save_conversation` (main.py, lines 159-171): the
JSON value `json.dump` writes to the file, the array of the history's
message objects in order. -/
def save_conversation (hist : List Message) : Json :=
  .arr (hist.map encodeMessage)

/-- Reading a list of history entries back from their JSON objects, in
order; fails when any entry fails. -/
def decodeMessages : List Json → Option (List Message)
  | [] => some []
  | j :: rest =>
    match decodeMessage j, decodeMessages rest with
    | some m, some t => some (m :: t)
    | _, _ => none

/-- Coercing a parsed JSON value back into a typed history: the array of
message objects, element by element.  (The Python assignment is untyped;
values outside this shape fall outside the typed state, cf. the spec's open
question about `restore` not re-validating.) -/
def decodeHistory : Json → Option (List Message)
  | .arr xs => decodeMessages xs
  | _ => none

/-- Embedding of `ChatAgent.load_conversation` (main.py, lines 173-185).
`readFile` models `open(filename).read()` (`none` when `open` raises, e.g.
a missing file), `jsonParse` models the `json` library's text parsing
(`none` when `json.load` raises on invalid JSON).  The `try/except
Exception` wrapper catches every failure, logs it and leaves
`conversation_history` untouched, so the embedding is a total function
returning the (possibly unchanged) history — it never raises. -/
def load_conversation (readFile : String → Option String)
    (jsonParse : String → Option Json) (filename : String)
    (hist : List Message) : List Message :=
  match readFile filename with
  | none => hist
  | some contents =>
    match jsonParse contents with
    | none => hist
    | some j =>
      match decodeHistory j with
      | some newHist => newHist
      | none => hist

/-! Helper lemmas shared by the claim theorems. -/

theorem add_message_user_eq (msg : String) (hist : List Message) :
    add_message "user" msg hist = .ok (hist ++ [⟨"user", msg⟩]) := rfl

theorem add_message_assistant_eq (msg : String) (hist : List Message) :
    add_message "assistant" msg hist = .ok (hist ++ [⟨"assistant", msg⟩]) := rfl

theorem add_message_system_eq (content : String) (hist : List Message) :
    add_message "system" content hist = .ok (set_system_prompt content hist) := rfl

theorem send_once_error (outcomes : Nat → Except PyErr String)
    (msg : String) (a : Nat) (hist : List Message) (e : PyErr)
    (h : outcomes a = .error e) :
    send_message_once outcomes msg a hist
      = (hist ++ [⟨"user", msg⟩], .error e) := by
  simp [send_message_once, add_message_user_eq, h]

theorem send_once_ok (outcomes : Nat → Except PyErr String)
    (msg : String) (a : Nat) (hist : List Message) (v : String)
    (h : outcomes a = .ok v) :
    send_message_once outcomes msg a hist
      = (hist ++ [⟨"user", msg⟩, ⟨"assistant", v⟩], .ok v) := by
  simp [send_message_once, add_message_user_eq, add_message_assistant_eq, h]

theorem systemInvariant_cons_iff (m : Message) (rest : List Message) :
    SystemInvariant (m :: rest) ↔ ∀ x ∈ rest, x.role ≠ "system" := by
  simp [SystemInvariant]

theorem systemInvariant_append_single (hist : List Message) (x : Message)
    (h : SystemInvariant hist) (hx : x.role ≠ "system") :
    SystemInvariant (hist ++ [x]) := by
  cases hist with
  | nil => simp [SystemInvariant]
  | cons m rest =>
    rw [List.cons_append, systemInvariant_cons_iff]
    intro y hy
    rcases List.mem_append.mp hy with h1 | h2
    · exact (systemInvariant_cons_iff m rest).mp h y h1
    · rw [List.mem_singleton.mp h2]
      exact hx

theorem set_system_prompt_invariant (s : String) (hist : List Message)
    (h : SystemInvariant hist) : SystemInvariant (set_system_prompt s hist) := by
  cases hist with
  | nil => simp [set_system_prompt, SystemInvariant]
  | cons m rest =>
    by_cases hm : m.role = "system"
    · simp only [set_system_prompt, if_pos hm]
      rw [systemInvariant_cons_iff]
      exact (systemInvariant_cons_iff m rest).mp h
    · simp only [set_system_prompt, if_neg hm]
      rw [systemInvariant_cons_iff]
      intro y hy
      rcases List.mem_cons.mp hy with rfl | h2
      · exact hm
      · exact (systemInvariant_cons_iff m rest).mp h y h2

theorem clear_conversation_invariant (b : Bool) (hist : List Message) :
    SystemInvariant (clear_conversation b hist) := by
  cases hist with
  | nil => simp [clear_conversation, SystemInvariant]
  | cons m rest =>
    simp only [clear_conversation]
    split
    · simp [SystemInvariant]
    · simp [SystemInvariant]

theorem decodeHistory_save (h : List Message) :
    decodeHistory (save_conversation h) = some h := by
  simp only [decodeHistory, save_conversation]
  induction h with
  | nil => rfl
  | cons m t ih => simp [decodeMessages, decodeMessage, encodeMessage, ih]

/-! Concrete provider oracles used by the witnesses. -/

/-- Provider that raises a generic `APIError` on every attempt. -/
def failOracle : Nat → Except PyErr String :=
  fun _ => .error (.apiError "boom")

/-- Provider that is rate-limited on attempts 1 and 2 and succeeds on
attempt 3. -/
def mixedOracle : Nat → Except PyErr String :=
  fun n => if n < 3 then .error (.rateLimitError "rate limited") else .ok "pong"

/-! Claim theorems. -/

/-- Claim C1, counterexample: the claim that a fully failing `send_message`
leaves the conversation history as it was before the call is false.  With
history `[system "S"]` and a provider that raises `APIConnectionError` on
every attempt, the history after the retries are exhausted differs from the
pre-call history: `add_message("user", message)` runs inside the retried
body, so each of the 3 attempts appends another copy of the user message. -/
theorem spec_C1_counterexample :
    (send_message (fun _ => .error (.apiConnectionError "connection down"))
        "hi" [⟨"system", "S"⟩]).history ≠ [⟨"system", "S"⟩] := by decide

/-- Claim C1, amended: when the provider raises on attempts 1, 2 and 3,
`send_message` surfaces the last error and leaves the history equal to the
pre-call history with the user message appended once per attempt (three
copies); in particular no assistant message is appended and the failure
itself performs no further mutation. -/
theorem spec_C1_amended (outcomes : Nat → Except PyErr String)
    (message : String) (hist : List Message) (e1 e2 e3 : PyErr)
    (h1 : outcomes 1 = .error e1) (h2 : outcomes 2 = .error e2)
    (h3 : outcomes 3 = .error e3) :
    (send_message outcomes message hist).history
      = hist ++ [⟨"user", message⟩, ⟨"user", message⟩, ⟨"user", message⟩] ∧
    (send_message outcomes message hist).outcome = .error e3 := by
  simp [send_message, retry_loop, send_once_error _ _ _ _ _ h1,
    send_once_error _ _ _ _ _ h2, send_once_error _ _ _ _ _ h3]

/-- Witness for `spec_C1_amended` at the always-failing provider
`failOracle`, message `"hi"` and history `[system "S"]`. -/
theorem spec_C1_witness :
    failOracle 1 = .error (.apiError "boom") ∧
    failOracle 2 = .error (.apiError "boom") ∧
    failOracle 3 = .error (.apiError "boom") ∧
    ((send_message failOracle "hi" [⟨"system", "S"⟩]).history
        = [⟨"system", "S"⟩] ++ [⟨"user", "hi"⟩, ⟨"user", "hi"⟩, ⟨"user", "hi"⟩] ∧
      (send_message failOracle "hi" [⟨"system", "S"⟩]).outcome
        = .error (.apiError "boom")) :=
  ⟨rfl, rfl, rfl,
    spec_C1_amended failOracle "hi" [⟨"system", "S"⟩] _ _ _ rfl rfl rfl⟩

/-- Claim C2: when the provider raises on every attempt, `send_message`
makes exactly 3 attempts (`stop_after_attempt(3)`) and then re-raises the
exception of the last attempt itself — `reraise=True`, so the surfaced
error is exactly `e3`, not a wrapper. -/
theorem spec_C2 (outcomes : Nat → Except PyErr String)
    (message : String) (hist : List Message) (e1 e2 e3 : PyErr)
    (h1 : outcomes 1 = .error e1) (h2 : outcomes 2 = .error e2)
    (h3 : outcomes 3 = .error e3) :
    (send_message outcomes message hist).attempts = 3 ∧
    (send_message outcomes message hist).outcome = .error e3 := by
  simp [send_message, retry_loop, send_once_error _ _ _ _ _ h1,
    send_once_error _ _ _ _ _ h2, send_once_error _ _ _ _ _ h3]

/-- Witness for `spec_C2` at the always-failing provider `failOracle`. -/
theorem spec_C2_witness :
    failOracle 1 = .error (.apiError "boom") ∧
    failOracle 2 = .error (.apiError "boom") ∧
    failOracle 3 = .error (.apiError "boom") ∧
    ((send_message failOracle "ping" []).attempts = 3 ∧
      (send_message failOracle "ping" []).outcome = .error (.apiError "boom")) :=
  ⟨rfl, rfl, rfl, spec_C2 failOracle "ping" [] _ _ _ rfl rfl rfl⟩

/-- Claim C3: when the provider fails on attempts 1 and 2 and succeeds on
attempt 3, the call returns the attempt-3 value and sleeps exactly twice,
each sleep being `wait_exponential 1 2 10 a` for the attempt `a` that just
failed, i.e. `min(max_wait, 1 * 2 ^ (a - 1))` further clamped below by
`min_wait = 2`; concretely both sleeps are 2 seconds, so the second delay
is ≥ the first and neither exceeds the configured maximum of 10. -/
theorem spec_C3 (outcomes : Nat → Except PyErr String)
    (message : String) (hist : List Message) (e1 e2 : PyErr) (v : String)
    (h1 : outcomes 1 = .error e1) (h2 : outcomes 2 = .error e2)
    (h3 : outcomes 3 = .ok v) :
    (send_message outcomes message hist).outcome = .ok v ∧
    (send_message outcomes message hist).attempts = 3 ∧
    (send_message outcomes message hist).sleeps
      = [wait_exponential 1 2 10 1, wait_exponential 1 2 10 2] ∧
    (send_message outcomes message hist).sleeps = [2, 2] ∧
    wait_exponential 1 2 10 1 ≤ wait_exponential 1 2 10 2 ∧
    wait_exponential 1 2 10 1 ≤ 10 ∧ wait_exponential 1 2 10 2 ≤ 10 := by
  refine ⟨?_, ?_, ?_, ?_, by decide, by decide, by decide⟩ <;>
    simp [send_message, retry_loop, send_once_error _ _ _ _ _ h1,
      send_once_error _ _ _ _ _ h2, send_once_ok _ _ _ _ _ h3, wait_exponential]

/-- Witness for `spec_C3` at the provider `mixedOracle`, which is
rate-limited twice and then succeeds. -/
theorem spec_C3_witness :
    mixedOracle 1 = .error (.rateLimitError "rate limited") ∧
    mixedOracle 2 = .error (.rateLimitError "rate limited") ∧
    mixedOracle 3 = .ok "pong" ∧
    ((send_message mixedOracle "hello" []).outcome = .ok "pong" ∧
      (send_message mixedOracle "hello" []).attempts = 3 ∧
      (send_message mixedOracle "hello" []).sleeps
        = [wait_exponential 1 2 10 1, wait_exponential 1 2 10 2] ∧
      (send_message mixedOracle "hello" []).sleeps = [2, 2] ∧
      wait_exponential 1 2 10 1 ≤ wait_exponential 1 2 10 2 ∧
      wait_exponential 1 2 10 1 ≤ 10 ∧ wait_exponential 1 2 10 2 ≤ 10) :=
  ⟨rfl, rfl, rfl, spec_C3 mixedOracle "hello" [] _ _ _ rfl rfl rfl⟩

/-- Claim C4, counterexample: classifying a rate-limit failure does not
yield `error_type = "RateLimited"`: `handle_error` stores the concrete
Python class name `type(error).__name__`, which is `"RateLimitError"`. -/
theorem spec_C4_counterexample :
    (handle_error (.rateLimitError "Rate limit exceeded")
        "2024-01-01 00:00:00").error_type = "RateLimitError" ∧
    (handle_error (.rateLimitError "Rate limit exceeded")
        "2024-01-01 00:00:00").error_type ≠ "RateLimited" := by decide

/-- Claim C4, amended: for a rate-limit failure `handle_error` returns
`error_type = "RateLimitError"` (the concrete class name) and a suggestion
mentioning retrying later; and for every error, classification is a total
function (it never raises) whose result has all four fields populated:
`error_type` is the class name, `message` the original error text,
`timestamp` the capture time, and `suggestion` a non-empty text. -/
theorem spec_C4_amended (msg now : String) (e : PyErr) :
    (handle_error (.rateLimitError msg) now).error_type = "RateLimitError" ∧
    mentions "try again later"
      (handle_error (.rateLimitError msg) now).suggestion = true ∧
    (handle_error e now).error_type = e.typeName ∧
    (handle_error e now).message = e.text ∧
    (handle_error e now).timestamp = now ∧
    (handle_error e now).suggestion ≠ "" := by
  have hs : (handle_error (.rateLimitError msg) now).suggestion
      = "Please try again later. The API is currently experiencing high demand." :=
    rfl
  refine ⟨rfl, ?_, rfl, rfl, rfl, ?_⟩
  · rw [hs]; decide
  · cases e <;> simp only [handle_error] <;> decide

/-- Claim C5: the single-system-message invariant is preserved by
`set_system_prompt`, by `add_message` with any valid role (on success; a
raised `ValueError` changes nothing), and by `clear_conversation` with
either flag value. -/
theorem spec_C5 (hist : List Message) (role content s : String) (b : Bool)
    (hInv : SystemInvariant hist)
    (hrole : role ∈ ["user", "assistant", "system"]) :
    SystemInvariant (set_system_prompt s hist) ∧
    InvPreserved (add_message role content hist) ∧
    SystemInvariant (clear_conversation b hist) := by
  refine ⟨set_system_prompt_invariant s hist hInv, ?_,
    clear_conversation_invariant b hist⟩
  simp only [List.mem_cons, List.mem_singleton, List.not_mem_nil, or_false] at hrole
  rcases hrole with rfl | rfl | rfl
  · rw [add_message_user_eq]
    exact systemInvariant_append_single hist ⟨"user", content⟩ hInv
      (by decide : ("user" : String) ≠ "system")
  · rw [add_message_assistant_eq]
    exact systemInvariant_append_single hist ⟨"assistant", content⟩ hInv
      (by decide : ("assistant" : String) ≠ "system")
  · rw [add_message_system_eq]
    exact set_system_prompt_invariant content hist hInv

/-- Witness for `spec_C5` at the history `[system "S", user "hi"]`, role
`"user"`. -/
theorem spec_C5_witness :
    SystemInvariant [⟨"system", "S"⟩, ⟨"user", "hi"⟩] ∧
    "user" ∈ ["user", "assistant", "system"] ∧
    (SystemInvariant
        (set_system_prompt "T" [⟨"system", "S"⟩, ⟨"user", "hi"⟩]) ∧
      InvPreserved (add_message "user" "x" [⟨"system", "S"⟩, ⟨"user", "hi"⟩]) ∧
      SystemInvariant
        (clear_conversation true [⟨"system", "S"⟩, ⟨"user", "hi"⟩])) :=
  ⟨by decide, by decide,
    spec_C5 [⟨"system", "S"⟩, ⟨"user", "hi"⟩] "user" "x" "T" true
      (by decide) (by decide)⟩

/-- Claim C6: for every history `H`, the snapshot (the list returned by
`get_conversation_history`, serialized by `save_conversation` as the JSON
array written to disk) restores through `load_conversation` to a history
equal to `H` element by element. -/
theorem spec_C6 (h cur : List Message) (fn contents : String) :
    load_conversation (fun _ => some contents)
        (fun _ => some (save_conversation h)) fn cur
      = get_conversation_history h ∧
    get_conversation_history h = h := by
  constructor
  · simp [load_conversation, decodeHistory_save, get_conversation_history]
  · rfl

/-- Claim C7: adding a message with role `system` produces exactly the same
history as `set_system_prompt` with the same content — `add_message`
delegates to it. -/
theorem spec_C7 (hist : List Message) (content : String) :
    add_message "system" content hist = .ok (set_system_prompt content hist) :=
  rfl

/-- Claim C8: for every role outside `{user, assistant, system}`,
`add_message` raises the invalid-role `ValueError` and the conversation
history is left exactly unchanged (the raise happens before any
mutation). -/
theorem spec_C8 (role content : String) (hist : List Message)
    (h : role ∉ ["user", "assistant", "system"]) :
    add_message role content hist
      = .error (.valueError ("Invalid role: " ++ role ++
          ". Must be \x27user\x27, \x27assistant\x27, or \x27system\x27")) ∧
    (add_message_run role content hist).1 = hist := by
  constructor
  · simp only [add_message, if_pos h]
  · simp only [add_message_run, add_message, if_pos h]

/-- Witness for `spec_C8` at the invalid role `"bot"`. -/
theorem spec_C8_witness :
    "bot" ∉ ["user", "assistant", "system"] ∧
    (add_message "bot" "hello" [⟨"system", "S"⟩]
        = .error (.valueError ("Invalid role: " ++ "bot" ++
            ". Must be \x27user\x27, \x27assistant\x27, or \x27system\x27")) ∧
      (add_message_run "bot" "hello" [⟨"system", "S"⟩]).1 = [⟨"system", "S"⟩]) :=
  ⟨by decide, spec_C8 "bot" "hello" [⟨"system", "S"⟩] (by decide)⟩

/-- Claim C9: clearing a history whose head is a system message keeps
exactly that one message when `keep_system_prompt` is set and empties the
history otherwise; clearing a history with no leading system message
empties it for either flag value. -/
theorem spec_C9 (m : Message) (rest hist : List Message) (b : Bool)
    (h1 : m.role = "system")
    (h2 : ∀ x ∈ hist.take 1, x.role ≠ "system") :
    clear_conversation true (m :: rest) = [m] ∧
    clear_conversation false (m :: rest) = [] ∧
    clear_conversation b hist = [] := by
  refine ⟨?_, by simp [clear_conversation], ?_⟩
  · obtain ⟨r, c⟩ := m
    have hr : r = "system" := h1
    subst hr
    simp [clear_conversation]
  · cases hist with
    | nil => rfl
    | cons x t =>
      have hx : x.role ≠ "system" := h2 x (by simp)
      simp [clear_conversation, hx]

/-- Witness for `spec_C9` at the system message `system "S"`, tail
`[user "u"]` and the system-less history `[user "u"]`. -/
theorem spec_C9_witness :
    (Message.mk "system" "S").role = "system" ∧
    (∀ x ∈ ([⟨"user", "u"⟩] : List Message).take 1, x.role ≠ "system") ∧
    (clear_conversation true [⟨"system", "S"⟩, ⟨"user", "u"⟩]
        = [⟨"system", "S"⟩] ∧
      clear_conversation false [⟨"system", "S"⟩, ⟨"user", "u"⟩] = [] ∧
      clear_conversation true [⟨"user", "u"⟩] = []) :=
  ⟨rfl, by decide,
    spec_C9 ⟨"system", "S"⟩ [⟨"user", "u"⟩] [⟨"user", "u"⟩] true rfl (by decide)⟩

/-- Claim C10: `load_conversation` never raises (the `try/except` wrapper
makes it a total function into the new history), and whenever the file
cannot be read (`open` raises) or its contents do not parse as JSON
(`json.load` raises), the conversation history is left exactly as it was.
The hypothesis states precisely that no readable contents parse. -/
theorem spec_C10 (readFile : String → Option String)
    (jsonParse : String → Option Json) (filename : String)
    (hist : List Message)
    (h : ∀ s, readFile filename = some s → jsonParse s = none) :
    load_conversation readFile jsonParse filename hist = hist := by
  cases hr : readFile filename with
  | none => simp [load_conversation, hr]
  | some s => simp [load_conversation, hr, h s hr]

/-- Witness for `spec_C10` at a file whose contents are not valid JSON. -/
theorem spec_C10_witness :
    (∀ s, (fun _ => some "not json" : String → Option String) "conv.json"
        = some s → (fun _ => (none : Option Json)) s = none) ∧
    load_conversation (fun _ => some "not json") (fun _ => none) "conv.json"
      [⟨"system", "S"⟩] = [⟨"system", "S"⟩] :=
  ⟨fun _ _ => rfl,
    spec_C10 (fun _ => some "not json") (fun _ => none) "conv.json"
      [⟨"system", "S"⟩] (fun _ _ => rfl)⟩

end ChatAgentSpec
